import Mathlib

/-!
Shallow embedding of the quantized FastGRNN inference engine declared in
`c_reference/include/quantized_fastgrnn.h` (EdgeML).

The repository ships the header only: the struct layouts, the error codes and
the documented return values are embedded directly from that header.  The
bodies of `q_fastgrnn` and `q_fastgrnn_lr`, and the fixed-point primitive
library `quantized_utils.h` they consume, are not part of the source tree, so
they are modelled from the specification (each such definition carries a
doc comment starting with `Modelled from the spec:`).

Conventions of the embedding:
  * `INT_T` (a configurable-width signed fixed-point scalar) is modelled as
    `Int`; saturation behaviour of the external primitives is out of scope of
    the claims treated here and is not modelled.
  * `SCALE_T` (a power-of-two shift) is modelled as `Nat`; applying a scale
    `s` divides by `2 ^ s` with floor division (`Int./`, Euclidean division,
    which for positive divisors agrees with C arithmetic right shift).
  * `ITER_T` is modelled as `Nat`.
  * A C pointer that may be null (the scratch buffers) is `Option (List Int)`;
    a pointer the contract requires valid is `List Int`.
  * Each engine is a pure function returning the status code together with the
    final hidden state and the final scratch-buffer contents.
-/

namespace QFastGRNN

abbrev INT_T := Int

abbrev ITER_T := Nat

abbrev SCALE_T := Nat

/-- Error code `ERR_PRECOMP_NOT_INIT` from the header. -/
def ERR_PRECOMP_NOT_INIT : Int := -1

/-- Error code `ERR_TEMPLRW_NOT_INIT` from the header. -/
def ERR_TEMPLRW_NOT_INIT : Int := -2

/-- Error code `ERR_TEMPLRU_NOT_INIT` from the header. -/
def ERR_TEMPLRU_NOT_INIT : Int := -3

/-- Error code `ERR_NORMFEATURES_NOT_INIT` from the header. -/
def ERR_NORMFEATURES_NOT_INIT : Int := -4

/-- Modelled from the spec: the `rescale` operation of the external
fixed-point primitive library (`quantized_utils.h`, not in the source tree):
applying a scale divides by the corresponding power of two. -/
def rescale (x : INT_T) (s : SCALE_T) : INT_T := x / 2 ^ s

/-- Dot product of two fixed-point vectors (helper for the matrix-vector
multiply primitive). -/
def dotProd (a b : List INT_T) : INT_T := (List.zipWith (· * ·) a b).sum

/-- Modelled from the spec: the matrix-vector multiply primitive of the
external fixed-point library (`quantized_utils.h`, not in the source tree),
"a matrix-vector multiply over that scalar type with an explicit output
scale"; `scmat` and `scvec` are the named scales of the matrix operand and
the vector operand. -/
def m_q_mulvec (A : List (List INT_T)) (v : List INT_T) (scmat scvec : SCALE_T) :
    List INT_T :=
  A.map (fun row => rescale (dotProd row v) (scmat + scvec))

/-- Modelled from the spec: the scale-parameterized elementwise vector add of
the external fixed-point library, taking explicit input scales `s1`, `s2` and
output scale `sout`. -/
def v_q_add (a b : List INT_T) (s1 s2 sout : SCALE_T) : List INT_T :=
  List.zipWith (fun x y => rescale (rescale x s1 + rescale y s2) sout) a b

/-- Modelled from the spec: scalar-minus-vector primitive used for
`qOne - z` in the blend, with explicit input and output scales. -/
def v_q_scalar_sub (c : INT_T) (v : List INT_T) (s1 s2 sout : SCALE_T) :
    List INT_T :=
  v.map (fun x => rescale (rescale c s1 - rescale x s2) sout)

/-- Modelled from the spec: scalar-times-vector primitive used for
`sigmoid_zeta * (qOne - z)` in the blend, with explicit scales. -/
def v_q_scalar_mul (c : INT_T) (v : List INT_T) (s1 s2 : SCALE_T) :
    List INT_T :=
  v.map (fun x => rescale (c * x) (s1 + s2))

/-- Modelled from the spec: scalar-plus-vector primitive used for
`sigmoid_nu + _` in the blend, with explicit input and output scales. -/
def v_q_scalar_add (c : INT_T) (v : List INT_T) (s1 s2 sout : SCALE_T) :
    List INT_T :=
  v.map (fun x => rescale (rescale c s1 + rescale x s2) sout)

/-- Modelled from the spec: elementwise (Hadamard) product primitive with the
two operands' named scales. -/
def v_q_hadamard (a b : List INT_T) (s1 s2 : SCALE_T) : List INT_T :=
  List.zipWith (fun x y => rescale (x * y) (s1 + s2)) a b

/-- Modelled from the spec: the quantized sigmoid primitive of the external
fixed-point library, "taking input/output scale and a saturation limit":
the pre-activation is divided by `d`, offset by `a`, clamped into
`[0, limit]`, and rescaled from the input scale to the output scale. -/
def v_q_sigmoid_scalar (x : INT_T) (d a limit : INT_T) (scin scout : SCALE_T) :
    INT_T :=
  min limit (max 0 (x / d + a)) * 2 ^ scout / 2 ^ scin

/-- Modelled from the spec: the quantized tanh primitive of the external
fixed-point library: the pre-activation is clamped into `[-limit, limit]`
and rescaled from the input scale to the output scale. -/
def v_q_tanh_scalar (x : INT_T) (limit : INT_T) (scin scout : SCALE_T) :
    INT_T :=
  min limit (max (-limit) x) * 2 ^ scout / 2 ^ scin

/-- Model parameters for low-rank FastGRNN (struct `Q_FastGRNN_LR_Params`
from the header). -/
structure Q_FastGRNN_LR_Params where
  mean : List INT_T
  stdDev : List INT_T
  W1 : List (List INT_T)
  W2 : List (List INT_T)
  wRank : ITER_T
  U1 : List (List INT_T)
  U2 : List (List INT_T)
  uRank : ITER_T
  Bg : List INT_T
  Bh : List INT_T
  sigmoid_zeta : INT_T
  sigmoid_nu : INT_T
deriving DecidableEq

/-- Model scales for low-rank FastGRNN (struct `Q_FastGRNN_LR_Scales` from
the header, all fields in declaration order). -/
structure Q_FastGRNN_LR_Scales where
  input : SCALE_T
  mean : SCALE_T
  meanSub : SCALE_T
  stdDev : SCALE_T
  normFeaturesHDStdDev : SCALE_T
  W1 : SCALE_T
  normFeaturesMVW1 : SCALE_T
  H1W1 : SCALE_T
  H2W1 : SCALE_T
  W2 : SCALE_T
  tempLRW : SCALE_T
  H1W2 : SCALE_T
  H2W2 : SCALE_T
  U1 : SCALE_T
  hiddenStateMVU1 : SCALE_T
  H1U1 : SCALE_T
  H2U1 : SCALE_T
  U2 : SCALE_T
  tempLRU : SCALE_T
  H1U2 : SCALE_T
  H2U2 : SCALE_T
  mV2AddMV4 : SCALE_T
  mV4AddMV2 : SCALE_T
  mV2AddMV4Out : SCALE_T
  pC1AddBg : SCALE_T
  Bg : SCALE_T
  pC1AddBgOut : SCALE_T
  sigmoidScaleIn : SCALE_T
  sigmoidScaleOut : SCALE_T
  pC1AddBh : SCALE_T
  Bh : SCALE_T
  pC1AddBhOut : SCALE_T
  tanhScaleIn : SCALE_T
  tanhScaleOut : SCALE_T
  gateHDHiddenState : SCALE_T
  hiddenStateHDGate : SCALE_T
  qOneScale : SCALE_T
  qOneSubGate : SCALE_T
  qOneSubGateOut : SCALE_T
  sigmoidZeta : SCALE_T
  sigmoidZetaMulQOneSubGate : SCALE_T
  sigmoidNu : SCALE_T
  sigmoidNuAddQOneSubGate : SCALE_T
  sigmoidNuAddQOneSubGateOut : SCALE_T
  sigmoidNuAddQOneSubGateHDUpdate : SCALE_T
  updateHDSigmoidNuAddQOneSubGate : SCALE_T
  pC3AddPC1 : SCALE_T
  pC1AddPC3 : SCALE_T
  hiddenStateOut : SCALE_T
  sigmoidLimit : INT_T
  div : INT_T
  add : INT_T
  qOne : INT_T
deriving DecidableEq

/-- Buffers required for computation of low-rank FastGRNN (struct
`Q_FastGRNN_LR_Buffers` from the header); a null pointer is `none`. -/
structure Q_FastGRNN_LR_Buffers where
  preComp1 : Option (List INT_T)
  preComp2 : Option (List INT_T)
  preComp3 : Option (List INT_T)
  tempLRW : Option (List INT_T)
  tempLRU : Option (List INT_T)
  normFeatures : Option (List INT_T)
deriving DecidableEq

/-- Model parameters for FastGRNN (struct `Q_FastGRNN_Params` from the
header). -/
structure Q_FastGRNN_Params where
  mean : List INT_T
  stdDev : List INT_T
  W : List (List INT_T)
  U : List (List INT_T)
  Bg : List INT_T
  Bh : List INT_T
  sigmoid_zeta : INT_T
  sigmoid_nu : INT_T
deriving DecidableEq

/-- Model scales for FastGRNN (struct `Q_FastGRNN_Scales` from the header,
all fields in declaration order). -/
structure Q_FastGRNN_Scales where
  input : SCALE_T
  mean : SCALE_T
  meanSub : SCALE_T
  stdDev : SCALE_T
  normFeaturesHDStdDev : SCALE_T
  W : SCALE_T
  normFeaturesMVW : SCALE_T
  H1W : SCALE_T
  H2W : SCALE_T
  U : SCALE_T
  hiddenStateMVU : SCALE_T
  H1U : SCALE_T
  H2U : SCALE_T
  mV1AddMV2 : SCALE_T
  mV2AddMV1 : SCALE_T
  mV1AddMV2Out : SCALE_T
  pC1AddBg : SCALE_T
  Bg : SCALE_T
  pC1AddBgOut : SCALE_T
  sigmoidScaleIn : SCALE_T
  sigmoidScaleOut : SCALE_T
  pC1AddBh : SCALE_T
  Bh : SCALE_T
  pC1AddBhOut : SCALE_T
  tanhScaleIn : SCALE_T
  tanhScaleOut : SCALE_T
  gateHDHiddenState : SCALE_T
  hiddenStateHDGate : SCALE_T
  qOneScale : SCALE_T
  qOneSubGate : SCALE_T
  qOneSubGateOut : SCALE_T
  sigmoidZeta : SCALE_T
  sigmoidZetaMulQOneSubGate : SCALE_T
  sigmoidNu : SCALE_T
  sigmoidNuAddQOneSubGate : SCALE_T
  sigmoidNuAddQOneSubGateOut : SCALE_T
  sigmoidNuAddQOneSubGateHDUpdate : SCALE_T
  updateHDSigmoidNuAddQOneSubGate : SCALE_T
  pC3AddPC1 : SCALE_T
  pC1AddPC3 : SCALE_T
  hiddenStateOut : SCALE_T
  div : INT_T
  add : INT_T
  sigmoidLimit : INT_T
  qOne : INT_T
deriving DecidableEq

/-- Buffers required for computation of FastGRNN (struct `Q_FastGRNN_Buffers`
from the header); a null pointer is `none`. -/
structure Q_FastGRNN_Buffers where
  preComp1 : Option (List INT_T)
  preComp2 : Option (List INT_T)
  preComp3 : Option (List INT_T)
  normFeatures : Option (List INT_T)
deriving DecidableEq

/-- The `t`-th input block: `steps` consecutive blocks of length `inputDims`
make up the concatenated input vector. -/
def inputBlock (input : List INT_T) (inputDims t : ITER_T) : List INT_T :=
  (input.drop (t * inputDims)).take inputDims

/-- Modelled from the spec: per-step input normalization (§4.1 step 1),
`normFeatures = rescale(input[t] - mean, meanSub-scale) /
rescale(stdDev, stdDev-scale)`, elementwise. -/
def normFeaturize (x mean stdDev : List INT_T) (meanSubScale stdDevScale : SCALE_T) :
    List INT_T :=
  List.zipWith (fun xm d => rescale xm meanSubScale / rescale d stdDevScale)
    (List.zipWith (fun xi mi => xi - mi) x mean) stdDev

/-- Modelled from the spec: the features consumed by step `t` — the raw input
block when `normalize` is `0`, the mean/stdDev-normalized block otherwise. -/
def q_fastgrnn_features (mean stdDev : List INT_T)
    (meanSubScale stdDevScale : SCALE_T) (normalize : Int) (xt : List INT_T) :
    List INT_T :=
  if normalize = 0 then xt else normFeaturize xt mean stdDev meanSubScale stdDevScale

/-- Modelled from the spec: one step of the direct (full-rank) FastGRNN
recurrence (§4.1 steps 2–8) on already-normalized features `feat` and the
incoming hidden state `h`:
`preComp1 = MatVec(W, feat)`, `preComp2 = MatVec(U, h)`,
`preComp3 = preComp1 + preComp2`,
`z = QuantSigmoid(rescale(preComp3 + Bg, pC1AddBg-scale))`,
`hTilde = QuantTanh(rescale(preComp3 + Bh, pC1AddBh-scale))`,
`h' = rescale(sigmoid_zeta * (qOne - z) + sigmoid_nu, blend-scale) * hTilde
      + z * h`,
each operation using its named scale from the scales table. -/
def q_fastgrnn_cell (p : Q_FastGRNN_Params) (s : Q_FastGRNN_Scales)
    (feat h : List INT_T) : List INT_T :=
  let pc1 := m_q_mulvec p.W feat s.W s.normFeaturesMVW
  let pc2 := m_q_mulvec p.U h s.U s.hiddenStateMVU
  let pc3 := v_q_add pc1 pc2 s.mV1AddMV2 s.mV2AddMV1 s.mV1AddMV2Out
  let z := (v_q_add pc3 p.Bg s.pC1AddBg s.Bg s.pC1AddBgOut).map
      (fun x => v_q_sigmoid_scalar x s.div s.add s.sigmoidLimit
        s.sigmoidScaleIn s.sigmoidScaleOut)
  let hTilde := (v_q_add pc3 p.Bh s.pC1AddBh s.Bh s.pC1AddBhOut).map
      (fun x => v_q_tanh_scalar x s.sigmoidLimit s.tanhScaleIn s.tanhScaleOut)
  let blendCoeff := v_q_scalar_add p.sigmoid_nu
      (v_q_scalar_mul p.sigmoid_zeta
        (v_q_scalar_sub s.qOne z s.qOneScale s.qOneSubGate s.qOneSubGateOut)
        s.sigmoidZeta s.sigmoidZetaMulQOneSubGate)
      s.sigmoidNu s.sigmoidNuAddQOneSubGate s.sigmoidNuAddQOneSubGateOut
  v_q_add
    (v_q_hadamard blendCoeff hTilde s.sigmoidNuAddQOneSubGateHDUpdate
      s.updateHDSigmoidNuAddQOneSubGate)
    (v_q_hadamard z h s.gateHDHiddenState s.hiddenStateHDGate)
    s.pC3AddPC1 s.pC1AddPC3 s.hiddenStateOut

/-- Modelled from the spec: one step of the low-rank FastGRNN recurrence
(§4.2): identical shape to the direct cell, with the two matrix-vector
multiplies each replaced by a two-stage rank-reduced multiply through
`tempLRW` and `tempLRU`. -/
def q_fastgrnn_lr_cell (p : Q_FastGRNN_LR_Params) (s : Q_FastGRNN_LR_Scales)
    (feat h : List INT_T) : List INT_T :=
  let tlrw := m_q_mulvec p.W1 feat s.W1 s.normFeaturesMVW1
  let pc1 := m_q_mulvec p.W2 tlrw s.W2 s.tempLRW
  let tlru := m_q_mulvec p.U1 h s.U1 s.hiddenStateMVU1
  let pc2 := m_q_mulvec p.U2 tlru s.U2 s.tempLRU
  let pc3 := v_q_add pc1 pc2 s.mV2AddMV4 s.mV4AddMV2 s.mV2AddMV4Out
  let z := (v_q_add pc3 p.Bg s.pC1AddBg s.Bg s.pC1AddBgOut).map
      (fun x => v_q_sigmoid_scalar x s.div s.add s.sigmoidLimit
        s.sigmoidScaleIn s.sigmoidScaleOut)
  let hTilde := (v_q_add pc3 p.Bh s.pC1AddBh s.Bh s.pC1AddBhOut).map
      (fun x => v_q_tanh_scalar x s.sigmoidLimit s.tanhScaleIn s.tanhScaleOut)
  let blendCoeff := v_q_scalar_add p.sigmoid_nu
      (v_q_scalar_mul p.sigmoid_zeta
        (v_q_scalar_sub s.qOne z s.qOneScale s.qOneSubGate s.qOneSubGateOut)
        s.sigmoidZeta s.sigmoidZetaMulQOneSubGate)
      s.sigmoidNu s.sigmoidNuAddQOneSubGate s.sigmoidNuAddQOneSubGateOut
  v_q_add
    (v_q_hadamard blendCoeff hTilde s.sigmoidNuAddQOneSubGateHDUpdate
      s.updateHDSigmoidNuAddQOneSubGate)
    (v_q_hadamard z h s.gateHDHiddenState s.hiddenStateHDGate)
    s.pC3AddPC1 s.pC1AddPC3 s.hiddenStateOut

/-- The order in which step indices are consumed: `0, 1, ..., steps-1` when
`backward = 0`, and `steps-1, ..., 1, 0` otherwise. -/
def stepIndices (backward : Int) (steps : ITER_T) : List ITER_T :=
  if backward = 0 then List.range steps else (List.range steps).reverse

/-- Modelled from the spec: one iteration of the direct engine's step loop,
threading the hidden state and the scratch buffers; the buffers receive the
values they are named for (`preComp1 = Wx`, `preComp2 = Uh`,
`preComp3` their sum, `normFeatures` the normalized block when
normalization is on). -/
def q_fastgrnn_step (input : List INT_T) (inputDims : ITER_T)
    (p : Q_FastGRNN_Params) (s : Q_FastGRNN_Scales) (normalize : Int)
    (hb : List INT_T × Q_FastGRNN_Buffers) (t : ITER_T) :
    List INT_T × Q_FastGRNN_Buffers :=
  let feat := q_fastgrnn_features p.mean p.stdDev s.meanSub s.stdDev normalize
      (inputBlock input inputDims t)
  (q_fastgrnn_cell p s feat hb.1,
    { preComp1 := some (m_q_mulvec p.W feat s.W s.normFeaturesMVW)
      preComp2 := some (m_q_mulvec p.U hb.1 s.U s.hiddenStateMVU)
      preComp3 := some (v_q_add (m_q_mulvec p.W feat s.W s.normFeaturesMVW)
        (m_q_mulvec p.U hb.1 s.U s.hiddenStateMVU)
        s.mV1AddMV2 s.mV2AddMV1 s.mV1AddMV2Out)
      normFeatures := if normalize = 0 then hb.2.normFeatures else some feat })

/-- Modelled from the spec: one iteration of the low-rank engine's step loop,
threading the hidden state and the scratch buffers. -/
def q_fastgrnn_lr_step (input : List INT_T) (inputDims : ITER_T)
    (p : Q_FastGRNN_LR_Params) (s : Q_FastGRNN_LR_Scales) (normalize : Int)
    (hb : List INT_T × Q_FastGRNN_LR_Buffers) (t : ITER_T) :
    List INT_T × Q_FastGRNN_LR_Buffers :=
  let feat := q_fastgrnn_features p.mean p.stdDev s.meanSub s.stdDev normalize
      (inputBlock input inputDims t)
  let tlrw := m_q_mulvec p.W1 feat s.W1 s.normFeaturesMVW1
  let tlru := m_q_mulvec p.U1 hb.1 s.U1 s.hiddenStateMVU1
  (q_fastgrnn_lr_cell p s feat hb.1,
    { preComp1 := some (m_q_mulvec p.W2 tlrw s.W2 s.tempLRW)
      preComp2 := some (m_q_mulvec p.U2 tlru s.U2 s.tempLRU)
      preComp3 := some (v_q_add (m_q_mulvec p.W2 tlrw s.W2 s.tempLRW)
        (m_q_mulvec p.U2 tlru s.U2 s.tempLRU)
        s.mV2AddMV4 s.mV4AddMV2 s.mV2AddMV4Out)
      tempLRW := some tlrw
      tempLRU := some tlru
      normFeatures := if normalize = 0 then hb.2.normFeatures else some feat })

/-- Modelled from the spec: the direct (full-rank) engine `q_fastgrnn`
(declared in the header, body not in the source tree).  It validates the
scratch buffers in the documented order (`preComp1`, `preComp2`, `preComp3`,
then `normFeatures` when `normalize` is requested), returning the first
violated precondition's status without touching any state, then iterates the
per-step recurrence over the input blocks in the direction selected by
`backward`, and returns `0` with the final hidden state. -/
def q_fastgrnn (hiddenState : List INT_T) (hiddenDims : ITER_T)
    (input : List INT_T) (inputDims steps : ITER_T)
    (params : Q_FastGRNN_Params) (buffers : Q_FastGRNN_Buffers)
    (scales : Q_FastGRNN_Scales) (backward normalize : Int) :
    Int × List INT_T × Q_FastGRNN_Buffers :=
  if buffers.preComp1 = none then (ERR_PRECOMP_NOT_INIT, hiddenState, buffers)
  else if buffers.preComp2 = none then (ERR_PRECOMP_NOT_INIT, hiddenState, buffers)
  else if buffers.preComp3 = none then (ERR_PRECOMP_NOT_INIT, hiddenState, buffers)
  else if normalize ≠ 0 ∧ buffers.normFeatures = none then
    (ERR_NORMFEATURES_NOT_INIT, hiddenState, buffers)
  else
    (0, (stepIndices backward steps).foldl
      (q_fastgrnn_step input inputDims params scales normalize)
      (hiddenState, buffers))

/-- Modelled from the spec: the low-rank engine `q_fastgrnn_lr` (declared in
the header, body not in the source tree).  Identical control skeleton to the
direct engine, with the two extra buffer checks (`tempLRW`, `tempLRU`) in the
documented order and the two-stage rank-reduced multiplies per step. -/
def q_fastgrnn_lr (hiddenState : List INT_T) (hiddenDims : ITER_T)
    (input : List INT_T) (inputDims steps : ITER_T)
    (params : Q_FastGRNN_LR_Params) (buffers : Q_FastGRNN_LR_Buffers)
    (scales : Q_FastGRNN_LR_Scales) (backward normalize : Int) :
    Int × List INT_T × Q_FastGRNN_LR_Buffers :=
  if buffers.preComp1 = none then (ERR_PRECOMP_NOT_INIT, hiddenState, buffers)
  else if buffers.preComp2 = none then (ERR_PRECOMP_NOT_INIT, hiddenState, buffers)
  else if buffers.preComp3 = none then (ERR_PRECOMP_NOT_INIT, hiddenState, buffers)
  else if buffers.tempLRW = none then (ERR_TEMPLRW_NOT_INIT, hiddenState, buffers)
  else if buffers.tempLRU = none then (ERR_TEMPLRU_NOT_INIT, hiddenState, buffers)
  else if normalize ≠ 0 ∧ buffers.normFeatures = none then
    (ERR_NORMFEATURES_NOT_INIT, hiddenState, buffers)
  else
    (0, (stepIndices backward steps).foldl
      (q_fastgrnn_lr_step input inputDims params scales normalize)
      (hiddenState, buffers))

/-- The pure reference recurrence of the spec for the direct engine: fold the
per-step cell (on normalized-or-raw input blocks) over the ordered step
indices, with no buffer threading. -/
def q_fastgrnn_ref (hiddenState : List INT_T) (input : List INT_T)
    (inputDims steps : ITER_T) (p : Q_FastGRNN_Params) (s : Q_FastGRNN_Scales)
    (backward normalize : Int) : List INT_T :=
  (stepIndices backward steps).foldl
    (fun h t => q_fastgrnn_cell p s
      (q_fastgrnn_features p.mean p.stdDev s.meanSub s.stdDev normalize
        (inputBlock input inputDims t)) h)
    hiddenState

/-- The pure reference recurrence of the spec for the low-rank engine. -/
def q_fastgrnn_lr_ref (hiddenState : List INT_T) (input : List INT_T)
    (inputDims steps : ITER_T) (p : Q_FastGRNN_LR_Params)
    (s : Q_FastGRNN_LR_Scales) (backward normalize : Int) : List INT_T :=
  (stepIndices backward steps).foldl
    (fun h t => q_fastgrnn_lr_cell p s
      (q_fastgrnn_features p.mean p.stdDev s.meanSub s.stdDev normalize
        (inputBlock input inputDims t)) h)
    hiddenState

/-- The complete memory reachable from a call of the direct engine: the
in/out hidden state, the read-only input sequence, params and scales, and
the scratch buffers. -/
structure Q_FastGRNN_CallState where
  hiddenState : List INT_T
  input : List INT_T
  params : Q_FastGRNN_Params
  scales : Q_FastGRNN_Scales
  buffers : Q_FastGRNN_Buffers
deriving DecidableEq

/-- The complete memory reachable from a call of the low-rank engine. -/
structure Q_FastGRNN_LR_CallState where
  hiddenState : List INT_T
  input : List INT_T
  params : Q_FastGRNN_LR_Params
  scales : Q_FastGRNN_LR_Scales
  buffers : Q_FastGRNN_LR_Buffers
deriving DecidableEq

/-- The direct engine as a transformer of the whole reachable call state:
only `hiddenState` and `buffers` are replaced by the call's outputs. -/
def q_fastgrnn_run (st : Q_FastGRNN_CallState)
    (hiddenDims inputDims steps : ITER_T) (backward normalize : Int) :
    Int × Q_FastGRNN_CallState :=
  let r := q_fastgrnn st.hiddenState hiddenDims st.input inputDims steps
    st.params st.buffers st.scales backward normalize
  (r.1, { st with hiddenState := r.2.1, buffers := r.2.2 })

/-- The low-rank engine as a transformer of the whole reachable call state. -/
def q_fastgrnn_lr_run (st : Q_FastGRNN_LR_CallState)
    (hiddenDims inputDims steps : ITER_T) (backward normalize : Int) :
    Int × Q_FastGRNN_LR_CallState :=
  let r := q_fastgrnn_lr st.hiddenState hiddenDims st.input inputDims steps
    st.params st.buffers st.scales backward normalize
  (r.1, { st with hiddenState := r.2.1, buffers := r.2.2 })

/-- A fold whose step's first component depends only on the accumulator's
first component projects to a fold on the first component alone. -/
theorem foldl_fst_eq {α β : Type} (f : α × β → Nat → α × β) (g : α → Nat → α)
    (hf : ∀ ab t, (f ab t).1 = g ab.1 t) :
    ∀ (l : List Nat) (ab : α × β), (l.foldl f ab).1 = l.foldl g ab.1 := by
  intro l
  induction l with
  | nil => intro ab; rfl
  | cons t ts ih =>
    intro ab
    rw [List.foldl_cons, List.foldl_cons, ← hf ab t]
    exact ih (f ab t)

/-- When every buffer precondition of the direct engine holds, the call
returns status 0, its hidden-state output is the pure reference recurrence,
and its buffer output is the fold of the buffer-threading step. -/
theorem q_fastgrnn_of_valid (hiddenState : List INT_T) (hiddenDims : ITER_T)
    (input : List INT_T) (inputDims steps : ITER_T)
    (p : Q_FastGRNN_Params) (b : Q_FastGRNN_Buffers) (s : Q_FastGRNN_Scales)
    (backward normalize : Int)
    (h1 : b.preComp1 ≠ none) (h2 : b.preComp2 ≠ none) (h3 : b.preComp3 ≠ none)
    (h4 : normalize ≠ 0 → b.normFeatures ≠ none) :
    q_fastgrnn hiddenState hiddenDims input inputDims steps p b s backward normalize =
      (0,
       q_fastgrnn_ref hiddenState input inputDims steps p s backward normalize,
       ((stepIndices backward steps).foldl
         (q_fastgrnn_step input inputDims p s normalize) (hiddenState, b)).2) := by
  unfold q_fastgrnn
  rw [if_neg h1, if_neg h2, if_neg h3, if_neg (fun hc => h4 hc.1 hc.2)]
  refine congrArg (Prod.mk 0) (Prod.ext_iff.mpr ⟨?_, rfl⟩)
  exact foldl_fst_eq _ _ (fun ab t => rfl) _ _

/-- When every buffer precondition of the low-rank engine holds, the call
returns status 0, its hidden-state output is the pure reference recurrence,
and its buffer output is the fold of the buffer-threading step. -/
theorem q_fastgrnn_lr_of_valid (hiddenState : List INT_T) (hiddenDims : ITER_T)
    (input : List INT_T) (inputDims steps : ITER_T)
    (p : Q_FastGRNN_LR_Params) (b : Q_FastGRNN_LR_Buffers)
    (s : Q_FastGRNN_LR_Scales) (backward normalize : Int)
    (h1 : b.preComp1 ≠ none) (h2 : b.preComp2 ≠ none) (h3 : b.preComp3 ≠ none)
    (h4 : b.tempLRW ≠ none) (h5 : b.tempLRU ≠ none)
    (h6 : normalize ≠ 0 → b.normFeatures ≠ none) :
    q_fastgrnn_lr hiddenState hiddenDims input inputDims steps p b s backward normalize =
      (0,
       q_fastgrnn_lr_ref hiddenState input inputDims steps p s backward normalize,
       ((stepIndices backward steps).foldl
         (q_fastgrnn_lr_step input inputDims p s normalize) (hiddenState, b)).2) := by
  unfold q_fastgrnn_lr
  rw [if_neg h1, if_neg h2, if_neg h3, if_neg h4, if_neg h5,
    if_neg (fun hc => h6 hc.1 hc.2)]
  refine congrArg (Prod.mk 0) (Prod.ext_iff.mpr ⟨?_, rfl⟩)
  exact foldl_fst_eq _ _ (fun ab t => rfl) _ _

/-- With zero steps there are no step indices in either direction. -/
theorem stepIndices_zero (backward : Int) : stepIndices backward 0 = [] := by
  unfold stepIndices
  split <;> rfl

/-- Direct-engine scale table in which every shift is `0` (rescaling divides
by `2 ^ 0 = 1`) — the "no rounding loss" choice of intermediate scales; the
constant fields (`div`, `add`, `sigmoidLimit`, `qOne`) are parameters. -/
def exactScales (d a limit qOne : INT_T) : Q_FastGRNN_Scales :=
  { input := 0, mean := 0, meanSub := 0, stdDev := 0, normFeaturesHDStdDev := 0
    W := 0, normFeaturesMVW := 0, H1W := 0, H2W := 0
    U := 0, hiddenStateMVU := 0, H1U := 0, H2U := 0
    mV1AddMV2 := 0, mV2AddMV1 := 0, mV1AddMV2Out := 0
    pC1AddBg := 0, Bg := 0, pC1AddBgOut := 0
    sigmoidScaleIn := 0, sigmoidScaleOut := 0
    pC1AddBh := 0, Bh := 0, pC1AddBhOut := 0
    tanhScaleIn := 0, tanhScaleOut := 0
    gateHDHiddenState := 0, hiddenStateHDGate := 0
    qOneScale := 0, qOneSubGate := 0, qOneSubGateOut := 0
    sigmoidZeta := 0, sigmoidZetaMulQOneSubGate := 0
    sigmoidNu := 0, sigmoidNuAddQOneSubGate := 0, sigmoidNuAddQOneSubGateOut := 0
    sigmoidNuAddQOneSubGateHDUpdate := 0, updateHDSigmoidNuAddQOneSubGate := 0
    pC3AddPC1 := 0, pC1AddPC3 := 0, hiddenStateOut := 0
    div := d, add := a, sigmoidLimit := limit, qOne := qOne }

/-- Low-rank-engine scale table in which every shift is `0` — the
"no rounding loss" choice of intermediate scales. -/
def exactLRScales (d a limit qOne : INT_T) : Q_FastGRNN_LR_Scales :=
  { input := 0, mean := 0, meanSub := 0, stdDev := 0, normFeaturesHDStdDev := 0
    W1 := 0, normFeaturesMVW1 := 0, H1W1 := 0, H2W1 := 0
    W2 := 0, tempLRW := 0, H1W2 := 0, H2W2 := 0
    U1 := 0, hiddenStateMVU1 := 0, H1U1 := 0, H2U1 := 0
    U2 := 0, tempLRU := 0, H1U2 := 0, H2U2 := 0
    mV2AddMV4 := 0, mV4AddMV2 := 0, mV2AddMV4Out := 0
    pC1AddBg := 0, Bg := 0, pC1AddBgOut := 0
    sigmoidScaleIn := 0, sigmoidScaleOut := 0
    pC1AddBh := 0, Bh := 0, pC1AddBhOut := 0
    tanhScaleIn := 0, tanhScaleOut := 0
    gateHDHiddenState := 0, hiddenStateHDGate := 0
    qOneScale := 0, qOneSubGate := 0, qOneSubGateOut := 0
    sigmoidZeta := 0, sigmoidZetaMulQOneSubGate := 0
    sigmoidNu := 0, sigmoidNuAddQOneSubGate := 0, sigmoidNuAddQOneSubGateOut := 0
    sigmoidNuAddQOneSubGateHDUpdate := 0, updateHDSigmoidNuAddQOneSubGate := 0
    pC3AddPC1 := 0, pC1AddPC3 := 0, hiddenStateOut := 0
    sigmoidLimit := limit, div := d, add := a, qOne := qOne }

/-- Concrete direct-engine parameters for evaluating theorems on a
`hiddenDims = 1`, `inputDims = 1` model. -/
def exParams : Q_FastGRNN_Params :=
  { mean := [0], stdDev := [1], W := [[1]], U := [[1]], Bg := [0], Bh := [0]
    sigmoid_zeta := 1, sigmoid_nu := 1 }

/-- Concrete direct-engine scale table (all shifts `0`, small constants). -/
def exScales : Q_FastGRNN_Scales := exactScales 1 0 4 2

/-- Concrete direct-engine buffers with every pointer valid. -/
def exBuffers : Q_FastGRNN_Buffers :=
  { preComp1 := some [0], preComp2 := some [0], preComp3 := some [0]
    normFeatures := some [0] }

/-- Concrete low-rank parameters for a rank-1, `hiddenDims = 1`,
`inputDims = 1` model whose factors multiply exactly to `exParams`' matrices. -/
def exLRParams : Q_FastGRNN_LR_Params :=
  { mean := [0], stdDev := [1], W1 := [[1]], W2 := [[1]], wRank := 1
    U1 := [[1]], U2 := [[1]], uRank := 1, Bg := [0], Bh := [0]
    sigmoid_zeta := 1, sigmoid_nu := 1 }

/-- Concrete low-rank scale table (all shifts `0`, small constants). -/
def exLRScales : Q_FastGRNN_LR_Scales := exactLRScales 1 0 4 2

/-- Concrete low-rank buffers with every pointer valid. -/
def exLRBuffers : Q_FastGRNN_LR_Buffers :=
  { preComp1 := some [0], preComp2 := some [0], preComp3 := some [0]
    tempLRW := some [0], tempLRU := some [0], normFeatures := some [0] }

/-- C1: For every valid call of the direct engine `q_fastgrnn` with
`steps ≥ 1` and all required buffers present, each step `t` computes
`z = QuantSigmoid(rescale(preComp3 + Bg))` and
`hTilde = QuantTanh(rescale(preComp3 + Bh))` with
`preComp3 = MatVec(W, x_t) + MatVec(U, h)`, and updates the hidden state in
place to `rescale(sigmoid_zeta * (qOne - z) + sigmoid_nu) * hTilde + z * h`,
each operation at its named scale (this per-step computation is
`q_fastgrnn_cell`); after all steps the call returns `0` and the
hidden-state output is exactly the fold of this reference recurrence over
the ordered step indices. -/
theorem C1_direct_engine_runs_reference_recurrence
    (hiddenState : List INT_T) (hiddenDims : ITER_T) (input : List INT_T)
    (inputDims steps : ITER_T) (p : Q_FastGRNN_Params)
    (b : Q_FastGRNN_Buffers) (s : Q_FastGRNN_Scales) (backward normalize : Int)
    (hsteps : 1 ≤ steps)
    (h1 : b.preComp1 ≠ none) (h2 : b.preComp2 ≠ none) (h3 : b.preComp3 ≠ none)
    (h4 : normalize ≠ 0 → b.normFeatures ≠ none) :
    (q_fastgrnn hiddenState hiddenDims input inputDims steps p b s
        backward normalize).1 = 0 ∧
    (q_fastgrnn hiddenState hiddenDims input inputDims steps p b s
        backward normalize).2.1 =
      (stepIndices backward steps).foldl
        (fun h t => q_fastgrnn_cell p s
          (q_fastgrnn_features p.mean p.stdDev s.meanSub s.stdDev normalize
            (inputBlock input inputDims t)) h)
        hiddenState := by
  rw [q_fastgrnn_of_valid hiddenState hiddenDims input inputDims steps p b s
    backward normalize h1 h2 h3 h4]
  exact ⟨rfl, rfl⟩

/-- Witness for C1 at a concrete one-step call. -/
theorem C1_direct_engine_runs_reference_recurrence_witness :
    (q_fastgrnn [2] 1 [3] 1 1 exParams exBuffers exScales 0 0).1 = 0 ∧
    (q_fastgrnn [2] 1 [3] 1 1 exParams exBuffers exScales 0 0).2.1 =
      (stepIndices 0 1).foldl
        (fun h t => q_fastgrnn_cell exParams exScales
          (q_fastgrnn_features exParams.mean exParams.stdDev exScales.meanSub
            exScales.stdDev 0 (inputBlock [3] 1 t)) h)
        [2] :=
  C1_direct_engine_runs_reference_recurrence [2] 1 [3] 1 1 exParams exBuffers
    exScales 0 0 (by decide) (by decide) (by decide) (by decide) (by decide)

/-- C4: For every call of either engine with `steps = 0` and all buffer
preconditions satisfied, the call returns `0` and the hidden state is
unchanged. -/
theorem C4_zero_steps_is_noop :
    (∀ (hiddenState : List INT_T) (hiddenDims : ITER_T) (input : List INT_T)
      (inputDims : ITER_T) (p : Q_FastGRNN_Params) (b : Q_FastGRNN_Buffers)
      (s : Q_FastGRNN_Scales) (backward normalize : Int),
      b.preComp1 ≠ none → b.preComp2 ≠ none → b.preComp3 ≠ none →
      (normalize ≠ 0 → b.normFeatures ≠ none) →
      (q_fastgrnn hiddenState hiddenDims input inputDims 0 p b s
          backward normalize).1 = 0 ∧
      (q_fastgrnn hiddenState hiddenDims input inputDims 0 p b s
          backward normalize).2.1 = hiddenState) ∧
    (∀ (hiddenState : List INT_T) (hiddenDims : ITER_T) (input : List INT_T)
      (inputDims : ITER_T) (p : Q_FastGRNN_LR_Params)
      (b : Q_FastGRNN_LR_Buffers) (s : Q_FastGRNN_LR_Scales)
      (backward normalize : Int),
      b.preComp1 ≠ none → b.preComp2 ≠ none → b.preComp3 ≠ none →
      b.tempLRW ≠ none → b.tempLRU ≠ none →
      (normalize ≠ 0 → b.normFeatures ≠ none) →
      (q_fastgrnn_lr hiddenState hiddenDims input inputDims 0 p b s
          backward normalize).1 = 0 ∧
      (q_fastgrnn_lr hiddenState hiddenDims input inputDims 0 p b s
          backward normalize).2.1 = hiddenState) := by
  constructor
  · intro hS hD input iD p b s backward normalize h1 h2 h3 h4
    rw [q_fastgrnn_of_valid hS hD input iD 0 p b s backward normalize h1 h2 h3 h4]
    refine ⟨rfl, ?_⟩
    show q_fastgrnn_ref hS input iD 0 p s backward normalize = hS
    unfold q_fastgrnn_ref
    rw [stepIndices_zero]
    rfl
  · intro hS hD input iD p b s backward normalize h1 h2 h3 h4 h5 h6
    rw [q_fastgrnn_lr_of_valid hS hD input iD 0 p b s backward normalize
      h1 h2 h3 h4 h5 h6]
    refine ⟨rfl, ?_⟩
    show q_fastgrnn_lr_ref hS input iD 0 p s backward normalize = hS
    unfold q_fastgrnn_lr_ref
    rw [stepIndices_zero]
    rfl

/-- Witness for C4 at concrete zero-step calls of both engines. -/
theorem C4_zero_steps_is_noop_witness :
    ((q_fastgrnn [7] 1 [] 1 0 exParams exBuffers exScales 0 0).1 = 0 ∧
     (q_fastgrnn [7] 1 [] 1 0 exParams exBuffers exScales 0 0).2.1 = [7]) ∧
    ((q_fastgrnn_lr [7] 1 [] 1 0 exLRParams exLRBuffers exLRScales 0 0).1 = 0 ∧
     (q_fastgrnn_lr [7] 1 [] 1 0 exLRParams exLRBuffers exLRScales 0 0).2.1 = [7]) :=
  ⟨C4_zero_steps_is_noop.1 [7] 1 [] 1 exParams exBuffers exScales 0 0
      (by decide) (by decide) (by decide) (by decide),
   C4_zero_steps_is_noop.2 [7] 1 [] 1 exLRParams exLRBuffers exLRScales 0 0
      (by decide) (by decide) (by decide) (by decide) (by decide) (by decide)⟩

/-- C6: For every fixed arguments, two calls of the same engine produce
identical return statuses and bit-identical final hidden states: both
engines are embedded as pure functions of their arguments (no hidden state,
no input besides the listed ones), so repeated application coincides
definitionally. -/
theorem C6_engines_are_deterministic :
    (∀ (hiddenState : List INT_T) (hiddenDims : ITER_T) (input : List INT_T)
      (inputDims steps : ITER_T) (p : Q_FastGRNN_Params)
      (b : Q_FastGRNN_Buffers) (s : Q_FastGRNN_Scales) (backward normalize : Int),
      q_fastgrnn hiddenState hiddenDims input inputDims steps p b s
          backward normalize =
        q_fastgrnn hiddenState hiddenDims input inputDims steps p b s
          backward normalize) ∧
    (∀ (hiddenState : List INT_T) (hiddenDims : ITER_T) (input : List INT_T)
      (inputDims steps : ITER_T) (p : Q_FastGRNN_LR_Params)
      (b : Q_FastGRNN_LR_Buffers) (s : Q_FastGRNN_LR_Scales)
      (backward normalize : Int),
      q_fastgrnn_lr hiddenState hiddenDims input inputDims steps p b s
          backward normalize =
        q_fastgrnn_lr hiddenState hiddenDims input inputDims steps p b s
          backward normalize) :=
  ⟨fun _ _ _ _ _ _ _ _ _ _ => rfl, fun _ _ _ _ _ _ _ _ _ _ => rfl⟩

/-- C8: For every call of either engine, the params, the scales and the
input sequence of the reachable call state are unchanged by the call: the
state transformer replaces only `hiddenState` and `buffers`. -/
theorem C8_params_scales_input_never_mutated :
    (∀ (st : Q_FastGRNN_CallState) (hiddenDims inputDims steps : ITER_T)
      (backward normalize : Int),
      (q_fastgrnn_run st hiddenDims inputDims steps backward normalize).2.params
          = st.params ∧
      (q_fastgrnn_run st hiddenDims inputDims steps backward normalize).2.scales
          = st.scales ∧
      (q_fastgrnn_run st hiddenDims inputDims steps backward normalize).2.input
          = st.input) ∧
    (∀ (st : Q_FastGRNN_LR_CallState) (hiddenDims inputDims steps : ITER_T)
      (backward normalize : Int),
      (q_fastgrnn_lr_run st hiddenDims inputDims steps backward normalize).2.params
          = st.params ∧
      (q_fastgrnn_lr_run st hiddenDims inputDims steps backward normalize).2.scales
          = st.scales ∧
      (q_fastgrnn_lr_run st hiddenDims inputDims steps backward normalize).2.input
          = st.input) :=
  ⟨fun _ _ _ _ _ _ => ⟨rfl, rfl, rfl⟩, fun _ _ _ _ _ _ => ⟨rfl, rfl, rfl⟩⟩

/-- C10: The direct engine never returns `ERR_TEMPLRW_NOT_INIT` (-2) or
`ERR_TEMPLRU_NOT_INIT` (-3): for every input its status is one of `0`,
`ERR_PRECOMP_NOT_INIT` (-1) or `ERR_NORMFEATURES_NOT_INIT` (-4), since its
buffer struct has no `tempLRW`/`tempLRU` field and those checks exist only
in the low-rank variant. -/
theorem C10_direct_engine_status_range
    (hiddenState : List INT_T) (hiddenDims : ITER_T) (input : List INT_T)
    (inputDims steps : ITER_T) (p : Q_FastGRNN_Params)
    (b : Q_FastGRNN_Buffers) (s : Q_FastGRNN_Scales) (backward normalize : Int) :
    ((q_fastgrnn hiddenState hiddenDims input inputDims steps p b s
        backward normalize).1 = 0 ∨
     (q_fastgrnn hiddenState hiddenDims input inputDims steps p b s
        backward normalize).1 = ERR_PRECOMP_NOT_INIT ∨
     (q_fastgrnn hiddenState hiddenDims input inputDims steps p b s
        backward normalize).1 = ERR_NORMFEATURES_NOT_INIT) ∧
    (q_fastgrnn hiddenState hiddenDims input inputDims steps p b s
        backward normalize).1 ≠ ERR_TEMPLRW_NOT_INIT ∧
    (q_fastgrnn hiddenState hiddenDims input inputDims steps p b s
        backward normalize).1 ≠ ERR_TEMPLRU_NOT_INIT := by
  unfold q_fastgrnn
  split_ifs
  · exact ⟨Or.inr (Or.inl rfl),
      fun hcon => (show ERR_PRECOMP_NOT_INIT ≠ ERR_TEMPLRW_NOT_INIT by decide) hcon,
      fun hcon => (show ERR_PRECOMP_NOT_INIT ≠ ERR_TEMPLRU_NOT_INIT by decide) hcon⟩
  · exact ⟨Or.inr (Or.inl rfl),
      fun hcon => (show ERR_PRECOMP_NOT_INIT ≠ ERR_TEMPLRW_NOT_INIT by decide) hcon,
      fun hcon => (show ERR_PRECOMP_NOT_INIT ≠ ERR_TEMPLRU_NOT_INIT by decide) hcon⟩
  · exact ⟨Or.inr (Or.inl rfl),
      fun hcon => (show ERR_PRECOMP_NOT_INIT ≠ ERR_TEMPLRW_NOT_INIT by decide) hcon,
      fun hcon => (show ERR_PRECOMP_NOT_INIT ≠ ERR_TEMPLRU_NOT_INIT by decide) hcon⟩
  · exact ⟨Or.inr (Or.inr rfl),
      fun hcon => (show ERR_NORMFEATURES_NOT_INIT ≠ ERR_TEMPLRW_NOT_INIT by decide) hcon,
      fun hcon => (show ERR_NORMFEATURES_NOT_INIT ≠ ERR_TEMPLRU_NOT_INIT by decide) hcon⟩
  · exact ⟨Or.inl rfl,
      fun hcon => (show (0 : Int) ≠ ERR_TEMPLRW_NOT_INIT by decide) hcon,
      fun hcon => (show (0 : Int) ≠ ERR_TEMPLRU_NOT_INIT by decide) hcon⟩

/-- C2: Buffer precondition checks run in the fixed order `preComp1`,
`preComp2`, `preComp3`, then (low-rank only) `tempLRW`, `tempLRU`, then
`normFeatures`, and the first violated check determines the status: a null
`preComp1` returns -1 regardless of every other buffer; a null `tempLRW`
with all preComp buffers valid returns -2 on the low-rank engine; a null
`tempLRU` with `tempLRW` valid returns -3; `normalize` nonzero with null
`normFeatures` returns -4 on either engine, for every step count —
`steps` is universally quantified, so in particular the check fires at
`steps = 0`. -/
theorem C2_first_violated_check_determines_status :
    (∀ (hS : List INT_T) (hD : ITER_T) (input : List INT_T) (iD steps : ITER_T)
      (p : Q_FastGRNN_Params) (b : Q_FastGRNN_Buffers) (s : Q_FastGRNN_Scales)
      (bw n : Int), b.preComp1 = none →
      (q_fastgrnn hS hD input iD steps p b s bw n).1 = ERR_PRECOMP_NOT_INIT) ∧
    (∀ (hS : List INT_T) (hD : ITER_T) (input : List INT_T) (iD steps : ITER_T)
      (p : Q_FastGRNN_LR_Params) (b : Q_FastGRNN_LR_Buffers)
      (s : Q_FastGRNN_LR_Scales) (bw n : Int), b.preComp1 = none →
      (q_fastgrnn_lr hS hD input iD steps p b s bw n).1 = ERR_PRECOMP_NOT_INIT) ∧
    (∀ (hS : List INT_T) (hD : ITER_T) (input : List INT_T) (iD steps : ITER_T)
      (p : Q_FastGRNN_LR_Params) (b : Q_FastGRNN_LR_Buffers)
      (s : Q_FastGRNN_LR_Scales) (bw n : Int),
      b.preComp1 ≠ none → b.preComp2 ≠ none → b.preComp3 ≠ none →
      b.tempLRW = none →
      (q_fastgrnn_lr hS hD input iD steps p b s bw n).1 = ERR_TEMPLRW_NOT_INIT) ∧
    (∀ (hS : List INT_T) (hD : ITER_T) (input : List INT_T) (iD steps : ITER_T)
      (p : Q_FastGRNN_LR_Params) (b : Q_FastGRNN_LR_Buffers)
      (s : Q_FastGRNN_LR_Scales) (bw n : Int),
      b.preComp1 ≠ none → b.preComp2 ≠ none → b.preComp3 ≠ none →
      b.tempLRW ≠ none → b.tempLRU = none →
      (q_fastgrnn_lr hS hD input iD steps p b s bw n).1 = ERR_TEMPLRU_NOT_INIT) ∧
    (∀ (hS : List INT_T) (hD : ITER_T) (input : List INT_T) (iD steps : ITER_T)
      (p : Q_FastGRNN_Params) (b : Q_FastGRNN_Buffers) (s : Q_FastGRNN_Scales)
      (bw n : Int),
      b.preComp1 ≠ none → b.preComp2 ≠ none → b.preComp3 ≠ none →
      n ≠ 0 → b.normFeatures = none →
      (q_fastgrnn hS hD input iD steps p b s bw n).1 =
        ERR_NORMFEATURES_NOT_INIT) ∧
    (∀ (hS : List INT_T) (hD : ITER_T) (input : List INT_T) (iD steps : ITER_T)
      (p : Q_FastGRNN_LR_Params) (b : Q_FastGRNN_LR_Buffers)
      (s : Q_FastGRNN_LR_Scales) (bw n : Int),
      b.preComp1 ≠ none → b.preComp2 ≠ none → b.preComp3 ≠ none →
      b.tempLRW ≠ none → b.tempLRU ≠ none → n ≠ 0 → b.normFeatures = none →
      (q_fastgrnn_lr hS hD input iD steps p b s bw n).1 =
        ERR_NORMFEATURES_NOT_INIT) := by
  refine ⟨?_, ?_, ?_, ?_, ?_, ?_⟩
  · intro hS hD input iD steps p b s bw n h1
    unfold q_fastgrnn
    rw [if_pos h1]
  · intro hS hD input iD steps p b s bw n h1
    unfold q_fastgrnn_lr
    rw [if_pos h1]
  · intro hS hD input iD steps p b s bw n h1 h2 h3 h4
    unfold q_fastgrnn_lr
    rw [if_neg h1, if_neg h2, if_neg h3, if_pos h4]
  · intro hS hD input iD steps p b s bw n h1 h2 h3 h4 h5
    unfold q_fastgrnn_lr
    rw [if_neg h1, if_neg h2, if_neg h3, if_neg h4, if_pos h5]
  · intro hS hD input iD steps p b s bw n h1 h2 h3 hn hnf
    unfold q_fastgrnn
    rw [if_neg h1, if_neg h2, if_neg h3, if_pos ⟨hn, hnf⟩]
  · intro hS hD input iD steps p b s bw n h1 h2 h3 h4 h5 hn hnf
    unfold q_fastgrnn_lr
    rw [if_neg h1, if_neg h2, if_neg h3, if_neg h4, if_neg h5, if_pos ⟨hn, hnf⟩]

/-- Witness for C2 at concrete calls, including the `-4` check firing at
`steps = 0`. -/
theorem C2_first_violated_check_determines_status_witness :
    (q_fastgrnn [0] 1 [0] 1 1 exParams
        { exBuffers with preComp1 := none, normFeatures := none } exScales 0 1).1 =
      ERR_PRECOMP_NOT_INIT ∧
    (q_fastgrnn_lr [0] 1 [0] 1 1 exLRParams
        { exLRBuffers with preComp1 := none, tempLRW := none } exLRScales 0 0).1 =
      ERR_PRECOMP_NOT_INIT ∧
    (q_fastgrnn_lr [0] 1 [0] 1 1 exLRParams
        { exLRBuffers with tempLRW := none, normFeatures := none } exLRScales 0 1).1 =
      ERR_TEMPLRW_NOT_INIT ∧
    (q_fastgrnn_lr [0] 1 [0] 1 1 exLRParams
        { exLRBuffers with tempLRU := none } exLRScales 0 0).1 =
      ERR_TEMPLRU_NOT_INIT ∧
    (q_fastgrnn [0] 1 [] 1 0 exParams
        { exBuffers with normFeatures := none } exScales 0 1).1 =
      ERR_NORMFEATURES_NOT_INIT ∧
    (q_fastgrnn_lr [0] 1 [] 1 0 exLRParams
        { exLRBuffers with normFeatures := none } exLRScales 0 1).1 =
      ERR_NORMFEATURES_NOT_INIT :=
  ⟨C2_first_violated_check_determines_status.1 [0] 1 [0] 1 1 exParams
      { exBuffers with preComp1 := none, normFeatures := none } exScales 0 1
      (by decide),
   C2_first_violated_check_determines_status.2.1 [0] 1 [0] 1 1 exLRParams
      { exLRBuffers with preComp1 := none, tempLRW := none } exLRScales 0 0
      (by decide),
   C2_first_violated_check_determines_status.2.2.1 [0] 1 [0] 1 1 exLRParams
      { exLRBuffers with tempLRW := none, normFeatures := none } exLRScales 0 1
      (by decide) (by decide) (by decide) (by decide),
   C2_first_violated_check_determines_status.2.2.2.1 [0] 1 [0] 1 1 exLRParams
      { exLRBuffers with tempLRU := none } exLRScales 0 0
      (by decide) (by decide) (by decide) (by decide) (by decide),
   C2_first_violated_check_determines_status.2.2.2.2.1 [0] 1 [] 1 0 exParams
      { exBuffers with normFeatures := none } exScales 0 1
      (by decide) (by decide) (by decide) (by decide) (by decide),
   C2_first_violated_check_determines_status.2.2.2.2.2 [0] 1 [] 1 0 exLRParams
      { exLRBuffers with normFeatures := none } exLRScales 0 1
      (by decide) (by decide) (by decide) (by decide) (by decide) (by decide)
      (by decide)⟩

/-- Counterexample for C3: at a concrete call, the statuses returned for a
null `preComp1`, a null `preComp2` and a null `preComp3` are all
`ERR_PRECOMP_NOT_INIT` (-1) — equal, not pairwise distinct. -/
theorem C3_counterexample_preComp_statuses_all_equal :
    (q_fastgrnn [0] 1 [0] 1 1 exParams { exBuffers with preComp1 := none }
        exScales 0 0).1 = ERR_PRECOMP_NOT_INIT ∧
    (q_fastgrnn [0] 1 [0] 1 1 exParams { exBuffers with preComp2 := none }
        exScales 0 0).1 = ERR_PRECOMP_NOT_INIT ∧
    (q_fastgrnn [0] 1 [0] 1 1 exParams { exBuffers with preComp3 := none }
        exScales 0 0).1 = ERR_PRECOMP_NOT_INIT ∧
    (q_fastgrnn [0] 1 [0] 1 1 exParams { exBuffers with preComp1 := none }
        exScales 0 0).1 =
      (q_fastgrnn [0] 1 [0] 1 1 exParams { exBuffers with preComp2 := none }
        exScales 0 0).1 := by
  decide

/-- C3 amended: each distinct missing buffer KIND yields a distinct status
code: any missing preComp buffer yields `ERR_PRECOMP_NOT_INIT` (-1) — so the
statuses for null `preComp1`, `preComp2`, `preComp3` coincide — while a
missing `tempLRW` yields -2, a missing `tempLRU` -3 and a missing
`normFeatures` (with `normalize` requested) -4, these four codes being
pairwise distinct. -/
theorem C3_amended_distinct_status_per_buffer_kind :
    (∀ (hS : List INT_T) (hD : ITER_T) (input : List INT_T) (iD steps : ITER_T)
      (p : Q_FastGRNN_Params) (b : Q_FastGRNN_Buffers) (s : Q_FastGRNN_Scales)
      (bw n : Int),
      (b.preComp1 = none ∨ b.preComp2 = none ∨ b.preComp3 = none) →
      (q_fastgrnn hS hD input iD steps p b s bw n).1 = ERR_PRECOMP_NOT_INIT) ∧
    (∀ (hS : List INT_T) (hD : ITER_T) (input : List INT_T) (iD steps : ITER_T)
      (p : Q_FastGRNN_LR_Params) (b : Q_FastGRNN_LR_Buffers)
      (s : Q_FastGRNN_LR_Scales) (bw n : Int),
      (b.preComp1 = none ∨ b.preComp2 = none ∨ b.preComp3 = none) →
      (q_fastgrnn_lr hS hD input iD steps p b s bw n).1 = ERR_PRECOMP_NOT_INIT) ∧
    (∀ (hS : List INT_T) (hD : ITER_T) (input : List INT_T) (iD steps : ITER_T)
      (p : Q_FastGRNN_LR_Params) (b : Q_FastGRNN_LR_Buffers)
      (s : Q_FastGRNN_LR_Scales) (bw n : Int),
      b.preComp1 ≠ none → b.preComp2 ≠ none → b.preComp3 ≠ none →
      b.tempLRW = none →
      (q_fastgrnn_lr hS hD input iD steps p b s bw n).1 = ERR_TEMPLRW_NOT_INIT) ∧
    (∀ (hS : List INT_T) (hD : ITER_T) (input : List INT_T) (iD steps : ITER_T)
      (p : Q_FastGRNN_LR_Params) (b : Q_FastGRNN_LR_Buffers)
      (s : Q_FastGRNN_LR_Scales) (bw n : Int),
      b.preComp1 ≠ none → b.preComp2 ≠ none → b.preComp3 ≠ none →
      b.tempLRW ≠ none → b.tempLRU = none →
      (q_fastgrnn_lr hS hD input iD steps p b s bw n).1 = ERR_TEMPLRU_NOT_INIT) ∧
    (∀ (hS : List INT_T) (hD : ITER_T) (input : List INT_T) (iD steps : ITER_T)
      (p : Q_FastGRNN_LR_Params) (b : Q_FastGRNN_LR_Buffers)
      (s : Q_FastGRNN_LR_Scales) (bw n : Int),
      b.preComp1 ≠ none → b.preComp2 ≠ none → b.preComp3 ≠ none →
      b.tempLRW ≠ none → b.tempLRU ≠ none → n ≠ 0 → b.normFeatures = none →
      (q_fastgrnn_lr hS hD input iD steps p b s bw n).1 =
        ERR_NORMFEATURES_NOT_INIT) ∧
    (ERR_PRECOMP_NOT_INIT ≠ ERR_TEMPLRW_NOT_INIT ∧
     ERR_PRECOMP_NOT_INIT ≠ ERR_TEMPLRU_NOT_INIT ∧
     ERR_PRECOMP_NOT_INIT ≠ ERR_NORMFEATURES_NOT_INIT ∧
     ERR_TEMPLRW_NOT_INIT ≠ ERR_TEMPLRU_NOT_INIT ∧
     ERR_TEMPLRW_NOT_INIT ≠ ERR_NORMFEATURES_NOT_INIT ∧
     ERR_TEMPLRU_NOT_INIT ≠ ERR_NORMFEATURES_NOT_INIT) := by
  refine ⟨?_, ?_, ?_, ?_, ?_, by decide⟩
  · intro hS hD input iD steps p b s bw n h
    unfold q_fastgrnn
    rcases h with h | h | h
    · rw [if_pos h]
    · by_cases h1 : b.preComp1 = none
      · rw [if_pos h1]
      · rw [if_neg h1, if_pos h]
    · by_cases h1 : b.preComp1 = none
      · rw [if_pos h1]
      · by_cases h2 : b.preComp2 = none
        · rw [if_neg h1, if_pos h2]
        · rw [if_neg h1, if_neg h2, if_pos h]
  · intro hS hD input iD steps p b s bw n h
    unfold q_fastgrnn_lr
    rcases h with h | h | h
    · rw [if_pos h]
    · by_cases h1 : b.preComp1 = none
      · rw [if_pos h1]
      · rw [if_neg h1, if_pos h]
    · by_cases h1 : b.preComp1 = none
      · rw [if_pos h1]
      · by_cases h2 : b.preComp2 = none
        · rw [if_neg h1, if_pos h2]
        · rw [if_neg h1, if_neg h2, if_pos h]
  · intro hS hD input iD steps p b s bw n h1 h2 h3 h4
    unfold q_fastgrnn_lr
    rw [if_neg h1, if_neg h2, if_neg h3, if_pos h4]
  · intro hS hD input iD steps p b s bw n h1 h2 h3 h4 h5
    unfold q_fastgrnn_lr
    rw [if_neg h1, if_neg h2, if_neg h3, if_neg h4, if_pos h5]
  · intro hS hD input iD steps p b s bw n h1 h2 h3 h4 h5 hn hnf
    unfold q_fastgrnn_lr
    rw [if_neg h1, if_neg h2, if_neg h3, if_neg h4, if_neg h5, if_pos ⟨hn, hnf⟩]

/-- Witness for the amended C3 at concrete calls with exactly one buffer
missing. -/
theorem C3_amended_distinct_status_per_buffer_kind_witness :
    (q_fastgrnn [0] 1 [0] 1 1 exParams { exBuffers with preComp2 := none }
        exScales 0 0).1 = ERR_PRECOMP_NOT_INIT ∧
    (q_fastgrnn_lr [0] 1 [0] 1 1 exLRParams
        { exLRBuffers with preComp3 := none } exLRScales 0 0).1 =
      ERR_PRECOMP_NOT_INIT ∧
    (q_fastgrnn_lr [0] 1 [0] 1 1 exLRParams
        { exLRBuffers with tempLRW := none } exLRScales 0 0).1 =
      ERR_TEMPLRW_NOT_INIT ∧
    (q_fastgrnn_lr [0] 1 [0] 1 1 exLRParams
        { exLRBuffers with tempLRU := none } exLRScales 0 0).1 =
      ERR_TEMPLRU_NOT_INIT ∧
    (q_fastgrnn_lr [0] 1 [0] 1 1 exLRParams
        { exLRBuffers with normFeatures := none } exLRScales 0 1).1 =
      ERR_NORMFEATURES_NOT_INIT :=
  ⟨C3_amended_distinct_status_per_buffer_kind.1 [0] 1 [0] 1 1 exParams
      { exBuffers with preComp2 := none } exScales 0 0 (by decide),
   C3_amended_distinct_status_per_buffer_kind.2.1 [0] 1 [0] 1 1 exLRParams
      { exLRBuffers with preComp3 := none } exLRScales 0 0 (by decide),
   C3_amended_distinct_status_per_buffer_kind.2.2.1 [0] 1 [0] 1 1 exLRParams
      { exLRBuffers with tempLRW := none } exLRScales 0 0
      (by decide) (by decide) (by decide) (by decide),
   C3_amended_distinct_status_per_buffer_kind.2.2.2.1 [0] 1 [0] 1 1 exLRParams
      { exLRBuffers with tempLRU := none } exLRScales 0 0
      (by decide) (by decide) (by decide) (by decide) (by decide),
   C3_amended_distinct_status_per_buffer_kind.2.2.2.2.1 [0] 1 [0] 1 1
      exLRParams { exLRBuffers with normFeatures := none } exLRScales 0 1
      (by decide) (by decide) (by decide) (by decide) (by decide) (by decide)
      (by decide)⟩

/-- C5: For every call of either engine that returns a nonzero status, the
hidden state and all buffer contents are exactly as they were before the
call: no partial mutation precedes a reported failure. -/
theorem C5_failing_call_leaves_state_unchanged :
    (∀ (hS : List INT_T) (hD : ITER_T) (input : List INT_T) (iD steps : ITER_T)
      (p : Q_FastGRNN_Params) (b : Q_FastGRNN_Buffers) (s : Q_FastGRNN_Scales)
      (bw n : Int),
      (q_fastgrnn hS hD input iD steps p b s bw n).1 ≠ 0 →
      (q_fastgrnn hS hD input iD steps p b s bw n).2.1 = hS ∧
      (q_fastgrnn hS hD input iD steps p b s bw n).2.2 = b) ∧
    (∀ (hS : List INT_T) (hD : ITER_T) (input : List INT_T) (iD steps : ITER_T)
      (p : Q_FastGRNN_LR_Params) (b : Q_FastGRNN_LR_Buffers)
      (s : Q_FastGRNN_LR_Scales) (bw n : Int),
      (q_fastgrnn_lr hS hD input iD steps p b s bw n).1 ≠ 0 →
      (q_fastgrnn_lr hS hD input iD steps p b s bw n).2.1 = hS ∧
      (q_fastgrnn_lr hS hD input iD steps p b s bw n).2.2 = b) := by
  constructor
  · intro hS hD input iD steps p b s bw n
    unfold q_fastgrnn
    split_ifs <;> intro hne
    · exact ⟨rfl, rfl⟩
    · exact ⟨rfl, rfl⟩
    · exact ⟨rfl, rfl⟩
    · exact ⟨rfl, rfl⟩
    · exact absurd rfl hne
  · intro hS hD input iD steps p b s bw n
    unfold q_fastgrnn_lr
    split_ifs <;> intro hne
    · exact ⟨rfl, rfl⟩
    · exact ⟨rfl, rfl⟩
    · exact ⟨rfl, rfl⟩
    · exact ⟨rfl, rfl⟩
    · exact ⟨rfl, rfl⟩
    · exact ⟨rfl, rfl⟩
    · exact absurd rfl hne

/-- Witness for C5 at concrete failing calls of both engines. -/
theorem C5_failing_call_leaves_state_unchanged_witness :
    ((q_fastgrnn [9] 1 [1] 1 1 exParams { exBuffers with preComp3 := none }
        exScales 0 0).2.1 = [9] ∧
     (q_fastgrnn [9] 1 [1] 1 1 exParams { exBuffers with preComp3 := none }
        exScales 0 0).2.2 = { exBuffers with preComp3 := none }) ∧
    ((q_fastgrnn_lr [9] 1 [1] 1 1 exLRParams
        { exLRBuffers with tempLRU := none } exLRScales 0 0).2.1 = [9] ∧
     (q_fastgrnn_lr [9] 1 [1] 1 1 exLRParams
        { exLRBuffers with tempLRU := none } exLRScales 0 0).2.2 =
       { exLRBuffers with tempLRU := none }) :=
  ⟨C5_failing_call_leaves_state_unchanged.1 [9] 1 [1] 1 1 exParams
      { exBuffers with preComp3 := none } exScales 0 0 (by decide),
   C5_failing_call_leaves_state_unchanged.2 [9] 1 [1] 1 1 exLRParams
      { exLRBuffers with tempLRU := none } exLRScales 0 0 (by decide)⟩

/-- C7: With `backward` nonzero the step indices are consumed in strictly
reverse order — index `steps - 1` first and index `0` on the last internal
iteration — while with `backward = 0` they are consumed in increasing order
`0 .. steps-1`; and the flag changes only the iteration order: for either
value of `backward` the hidden-state output of each engine — the direct
`q_fastgrnn` and the low-rank `q_fastgrnn_lr` alike — is the fold of one and
the same per-step function (in which `backward` does not occur) over
`stepIndices backward steps`. -/
theorem C7_backward_reverses_iteration_order_only :
    (∀ steps : ITER_T, stepIndices 0 steps = List.range steps) ∧
    (∀ (bw : Int) (steps : ITER_T), bw ≠ 0 →
      stepIndices bw steps = (List.range steps).reverse) ∧
    (∀ (bw : Int) (steps : ITER_T), bw ≠ 0 → 1 ≤ steps →
      (stepIndices bw steps).head? = some (steps - 1) ∧
      (stepIndices bw steps).getLast? = some 0) ∧
    (∀ (hS : List INT_T) (hD : ITER_T) (input : List INT_T)
      (iD steps : ITER_T) (p : Q_FastGRNN_Params) (b : Q_FastGRNN_Buffers)
      (s : Q_FastGRNN_Scales) (bw n : Int),
      b.preComp1 ≠ none → b.preComp2 ≠ none → b.preComp3 ≠ none →
      (n ≠ 0 → b.normFeatures ≠ none) →
      (q_fastgrnn hS hD input iD steps p b s bw n).2.1 =
        (stepIndices bw steps).foldl
          (fun h t => q_fastgrnn_cell p s
            (q_fastgrnn_features p.mean p.stdDev s.meanSub s.stdDev n
              (inputBlock input iD t)) h) hS) ∧
    (∀ (hS : List INT_T) (hD : ITER_T) (input : List INT_T)
      (iD steps : ITER_T) (p : Q_FastGRNN_LR_Params)
      (b : Q_FastGRNN_LR_Buffers) (s : Q_FastGRNN_LR_Scales) (bw n : Int),
      b.preComp1 ≠ none → b.preComp2 ≠ none → b.preComp3 ≠ none →
      b.tempLRW ≠ none → b.tempLRU ≠ none →
      (n ≠ 0 → b.normFeatures ≠ none) →
      (q_fastgrnn_lr hS hD input iD steps p b s bw n).2.1 =
        (stepIndices bw steps).foldl
          (fun h t => q_fastgrnn_lr_cell p s
            (q_fastgrnn_features p.mean p.stdDev s.meanSub s.stdDev n
              (inputBlock input iD t)) h) hS) := by
  refine ⟨?_, ?_, ?_, ?_, ?_⟩
  · intro steps
    unfold stepIndices
    rw [if_pos rfl]
  · intro bw steps hbw
    unfold stepIndices
    rw [if_neg hbw]
  · intro bw steps hbw hsteps
    unfold stepIndices
    rw [if_neg hbw]
    obtain ⟨m, rfl⟩ := Nat.exists_eq_add_of_le hsteps
    constructor
    · rw [List.head?_reverse, Nat.add_comm, List.range_succ,
        List.getLast?_concat]
      simp
    · rw [List.getLast?_reverse, Nat.add_comm, List.range_succ_eq_map]
      rfl
  · intro hS hD input iD steps p b s bw n h1 h2 h3 h4
    rw [q_fastgrnn_of_valid hS hD input iD steps p b s bw n h1 h2 h3 h4]
    rfl
  · intro hS hD input iD steps p b s bw n h1 h2 h3 h4 h5 h6
    rw [q_fastgrnn_lr_of_valid hS hD input iD steps p b s bw n h1 h2 h3 h4 h5 h6]
    rfl

/-- Witness for C7: backward order at `steps = 3`, and concrete backward
calls of both engines equal to the fold over the reversed index list. -/
theorem C7_backward_reverses_iteration_order_only_witness :
    stepIndices 0 3 = List.range 3 ∧
    stepIndices 1 3 = (List.range 3).reverse ∧
    ((stepIndices 1 3).head? = some 2 ∧ (stepIndices 1 3).getLast? = some 0) ∧
    (q_fastgrnn [2] 1 [3, 5] 1 2 exParams exBuffers exScales 1 0).2.1 =
      (stepIndices 1 2).foldl
        (fun h t => q_fastgrnn_cell exParams exScales
          (q_fastgrnn_features exParams.mean exParams.stdDev exScales.meanSub
            exScales.stdDev 0 (inputBlock [3, 5] 1 t)) h) [2] ∧
    (q_fastgrnn_lr [2] 1 [3, 5] 1 2 exLRParams exLRBuffers exLRScales 1 0).2.1 =
      (stepIndices 1 2).foldl
        (fun h t => q_fastgrnn_lr_cell exLRParams exLRScales
          (q_fastgrnn_features exLRParams.mean exLRParams.stdDev
            exLRScales.meanSub exLRScales.stdDev 0 (inputBlock [3, 5] 1 t)) h)
        [2] :=
  ⟨C7_backward_reverses_iteration_order_only.1 3,
   C7_backward_reverses_iteration_order_only.2.1 1 3 (by decide),
   C7_backward_reverses_iteration_order_only.2.2.1 1 3 (by decide) (by decide),
   C7_backward_reverses_iteration_order_only.2.2.2.1 [2] 1 [3, 5] 1 2 exParams
      exBuffers exScales 1 0 (by decide) (by decide) (by decide) (by decide),
   C7_backward_reverses_iteration_order_only.2.2.2.2 [2] 1 [3, 5] 1 2
      exLRParams exLRBuffers exLRScales 1 0 (by decide) (by decide) (by decide)
      (by decide) (by decide) (by decide)⟩

/-- With every intermediate scale zero (no rounding loss) and an
integer-exact extensional factorization `W = W2·W1`, `U = U2·U1`, one step of
the low-rank cell equals one step of the direct cell on the same features
and hidden state. -/
theorem cell_exact_scales_eq (pLR : Q_FastGRNN_LR_Params)
    (pD : Q_FastGRNN_Params) (d a limit qOne : INT_T)
    (hW : ∀ v, m_q_mulvec pD.W v 0 0 =
      m_q_mulvec pLR.W2 (m_q_mulvec pLR.W1 v 0 0) 0 0)
    (hU : ∀ v, m_q_mulvec pD.U v 0 0 =
      m_q_mulvec pLR.U2 (m_q_mulvec pLR.U1 v 0 0) 0 0)
    (hBg : pD.Bg = pLR.Bg) (hBh : pD.Bh = pLR.Bh)
    (hzeta : pD.sigmoid_zeta = pLR.sigmoid_zeta)
    (hnu : pD.sigmoid_nu = pLR.sigmoid_nu) (feat h : List INT_T) :
    q_fastgrnn_lr_cell pLR (exactLRScales d a limit qOne) feat h =
      q_fastgrnn_cell pD (exactScales d a limit qOne) feat h := by
  simp only [q_fastgrnn_lr_cell, q_fastgrnn_cell, exactLRScales, exactScales]
  rw [← hW feat, ← hU h, hBg, hBh, hzeta, hnu]

/-- C9: If the direct engine's `W` and `U` factor integer-exactly through the
low-rank engine's `(W1, W2)` and `(U1, U2)` (stated extensionally on the
exact matrix-vector primitive), the two engines share the remaining
parameters, and every intermediate scale is zero — the "no rounding loss"
choice — then on identical inputs both calls succeed and the low-rank final
hidden state is exactly equal to the direct final hidden state (zero
rounding error, hence within one unit of rounding error per step). -/
theorem C9_lowrank_matches_direct_under_exact_factorization
    (hS : List INT_T) (hD : ITER_T) (input : List INT_T) (iD steps : ITER_T)
    (pLR : Q_FastGRNN_LR_Params) (pD : Q_FastGRNN_Params)
    (bLR : Q_FastGRNN_LR_Buffers) (bD : Q_FastGRNN_Buffers)
    (d a limit qOne : INT_T) (bw n : Int)
    (hW : ∀ v, m_q_mulvec pD.W v 0 0 =
      m_q_mulvec pLR.W2 (m_q_mulvec pLR.W1 v 0 0) 0 0)
    (hU : ∀ v, m_q_mulvec pD.U v 0 0 =
      m_q_mulvec pLR.U2 (m_q_mulvec pLR.U1 v 0 0) 0 0)
    (hmean : pD.mean = pLR.mean) (hstd : pD.stdDev = pLR.stdDev)
    (hBg : pD.Bg = pLR.Bg) (hBh : pD.Bh = pLR.Bh)
    (hzeta : pD.sigmoid_zeta = pLR.sigmoid_zeta)
    (hnu : pD.sigmoid_nu = pLR.sigmoid_nu)
    (hb1 : bLR.preComp1 ≠ none) (hb2 : bLR.preComp2 ≠ none)
    (hb3 : bLR.preComp3 ≠ none) (hb4 : bLR.tempLRW ≠ none)
    (hb5 : bLR.tempLRU ≠ none) (hb6 : n ≠ 0 → bLR.normFeatures ≠ none)
    (hc1 : bD.preComp1 ≠ none) (hc2 : bD.preComp2 ≠ none)
    (hc3 : bD.preComp3 ≠ none) (hc4 : n ≠ 0 → bD.normFeatures ≠ none) :
    (q_fastgrnn_lr hS hD input iD steps pLR bLR
        (exactLRScales d a limit qOne) bw n).1 =
      (q_fastgrnn hS hD input iD steps pD bD
        (exactScales d a limit qOne) bw n).1 ∧
    (q_fastgrnn_lr hS hD input iD steps pLR bLR
        (exactLRScales d a limit qOne) bw n).2.1 =
      (q_fastgrnn hS hD input iD steps pD bD
        (exactScales d a limit qOne) bw n).2.1 := by
  rw [q_fastgrnn_lr_of_valid hS hD input iD steps pLR bLR
      (exactLRScales d a limit qOne) bw n hb1 hb2 hb3 hb4 hb5 hb6,
    q_fastgrnn_of_valid hS hD input iD steps pD bD
      (exactScales d a limit qOne) bw n hc1 hc2 hc3 hc4]
  refine ⟨rfl, ?_⟩
  show q_fastgrnn_lr_ref hS input iD steps pLR
      (exactLRScales d a limit qOne) bw n =
    q_fastgrnn_ref hS input iD steps pD (exactScales d a limit qOne) bw n
  unfold q_fastgrnn_lr_ref q_fastgrnn_ref
  refine List.foldl_ext _ _ hS ?_
  intro h t _
  have hfeat : q_fastgrnn_features pD.mean pD.stdDev
      (exactScales d a limit qOne).meanSub (exactScales d a limit qOne).stdDev
      n (inputBlock input iD t) =
    q_fastgrnn_features pLR.mean pLR.stdDev
      (exactLRScales d a limit qOne).meanSub
      (exactLRScales d a limit qOne).stdDev n (inputBlock input iD t) := by
    rw [hmean, hstd]
    rfl
  rw [hfeat]
  exact cell_exact_scales_eq pLR pD d a limit qOne hW hU hBg hBh hzeta hnu _ h

/-- Witness for C9 on a concrete rank-1 model whose factors multiply exactly
to the direct matrices. -/
theorem C9_lowrank_matches_direct_under_exact_factorization_witness :
    (q_fastgrnn_lr [1] 1 [2] 1 1 exLRParams exLRBuffers
        (exactLRScales 1 0 4 2) 0 0).1 =
      (q_fastgrnn [1] 1 [2] 1 1 exParams exBuffers
        (exactScales 1 0 4 2) 0 0).1 ∧
    (q_fastgrnn_lr [1] 1 [2] 1 1 exLRParams exLRBuffers
        (exactLRScales 1 0 4 2) 0 0).2.1 =
      (q_fastgrnn [1] 1 [2] 1 1 exParams exBuffers
        (exactScales 1 0 4 2) 0 0).2.1 :=
  C9_lowrank_matches_direct_under_exact_factorization [1] 1 [2] 1 1
    exLRParams exParams exLRBuffers exBuffers 1 0 4 2 0 0
    (by intro v; cases v <;> simp [m_q_mulvec, dotProd, rescale, exParams,
      exLRParams])
    (by intro v; cases v <;> simp [m_q_mulvec, dotProd, rescale, exParams,
      exLRParams])
    (by decide) (by decide) (by decide) (by decide) (by decide) (by decide)
    (by decide) (by decide) (by decide) (by decide) (by decide) (by decide)
    (by decide) (by decide) (by decide) (by decide)

end QFastGRNN
